import Mathlib

/-!
Verification of the gb-web Game Boy emulator core against its
natural-language specification.

The Rust sources are shallowly embedded: machine integers (`u8`, `u16`,
`usize`) become `Nat` with wrap-around written explicitly as `% 2^w` where
the source wraps, byte vectors (`Vec<u8>`) become `List Nat`, fallible
operations (Rust panics such as out-of-bounds slice indexing or overflow
of unchecked `+`/`-` under debug assertions) become `Option`/`Except`
results.  Each definition mirrors one function of the repository; the file
and function are named in the doc comment.
-/

set_option maxRecDepth 2500

namespace GB

/-- MBCType enum from core/src/memory.rs. -/
inductive MBCType where
  | NoMBC
  | MBC1
  | MBC2
  | MMM01
  | MBC3
  | MBC5
  | MBC6
  | MBC7
  | HuC3
  | HuC1
  deriving DecidableEq, Repr

/-- CartridgeInfo struct from core/src/memory.rs.  The `title` field keeps
the raw header bytes; the source decodes them as UTF-8 with
`unwrap_or_default`, which no claim depends on. -/
structure CartridgeInfo where
  mbc : MBCType
  has_ram : Bool
  has_battery : Bool
  rom_banks : Nat
  ram_banks : Nat
  title : List Nat
  deriving DecidableEq, Repr

/-- CartridgeInfo::from_header from core/src/memory.rs.  `header` is the
0x50-byte slice `rom[0x0100..=0x014F]`; indexing is in bounds for every
caller, so `getD` defaults are never taken. -/
def CartridgeInfo.from_header (header : List Nat) : CartridgeInfo :=
  let b47 := header.getD 0x47 0
  let mbc : MBCType :=
    if 0x01 ≤ b47 ∧ b47 ≤ 0x03 then .MBC1
    else if 0x05 ≤ b47 ∧ b47 ≤ 0x06 then .MBC2
    else if 0x0B ≤ b47 ∧ b47 ≤ 0x0D then .MMM01
    else if 0x0F ≤ b47 ∧ b47 ≤ 0x13 then .MBC3
    else if 0x19 ≤ b47 ∧ b47 ≤ 0x1E then .MBC5
    else if b47 = 0x20 then .MBC6
    else if b47 = 0x22 then .MBC7
    else if b47 = 0xFE then .HuC3
    else if b47 = 0xFF then .HuC1
    else .NoMBC
  let has_ram := b47 ∈ [0x02, 0x03, 0x0C, 0x0D, 0x10, 0x12, 0x13, 0x1A, 0x1B, 0x1D, 0x1E, 0x22]
  let has_battery := b47 ∈ [0x03, 0x06, 0x0D, 0x0F, 0x10, 0x13, 0x1B, 0x1E, 0x22]
  -- `2u16.saturating_pow(1 + value)` saturates at u16::MAX
  let rom_banks := min (2 ^ (1 + header.getD 0x48 0)) 0xFFFF
  let ram_banks :=
    if !has_ram then 0
    else match header.getD 0x49 0 with
      | 0x02 => 1
      | 0x03 => 4
      | 0x04 => 16
      | 0x05 => 8
      | _ => 0
  { mbc := mbc
    has_ram := has_ram
    has_battery := has_battery
    rom_banks := rom_banks
    ram_banks := ram_banks
    title := (header.drop 0x34).take 15 }

/-- MemoryInitializationErrorType enum from core/src/memory.rs. -/
inductive MemoryInitializationErrorType where
  | NoHeader
  | UnimplementedMBC (mbc : MBCType)
  deriving DecidableEq, Repr

/-- MemoryInitializationError struct from core/src/memory.rs. -/
structure MemoryInitializationError where
  error_type : MemoryInitializationErrorType
  deriving DecidableEq, Repr

/-- MBC struct from core/src/memory.rs. -/
structure MBC where
  rom : List Nat
  ram : List Nat
  rom_bank : Nat
  ram_bank : Nat
  ram_enabled : Bool
  info : CartridgeInfo
  advanced_banking : Bool
  deriving DecidableEq, Repr

/-- MBC::init from core/src/memory.rs. -/
def MBC.init (rom : List Nat) (info : CartridgeInfo) : MBC :=
  { rom := rom
    ram := List.replicate (0x2000 * info.ram_banks) 0
    rom_bank := 1
    ram_bank := 0
    ram_enabled := false
    advanced_banking := false
    info := info }

/-- MBC::read_rom from core/src/memory.rs: out-of-range reads log an error
and return 0. -/
def MBC.read_rom (m : MBC) (address : Nat) : Nat :=
  if m.rom.length ≤ address then 0 else m.rom.getD address 0

/-- MBC::read_ram from core/src/memory.rs: out-of-range reads log an error
and return 0. -/
def MBC.read_ram (m : MBC) (address : Nat) : Nat :=
  if m.ram.length ≤ address then 0 else m.ram.getD address 0

/-- MBC::write_ram from core/src/memory.rs: out-of-range writes log an
error and are dropped. -/
def MBC.write_ram (m : MBC) (address value : Nat) : MBC :=
  if m.ram.length ≤ address then m else { m with ram := m.ram.set address value }

/-- Ceiling base-2 logarithm by repeated halving: 0 for `n ≤ 1`, else
one more than the value at `⌈n / 2⌉`.  The first argument is fuel, always
sufficient at `n` since halving reaches 1 in at most `n` steps. -/
def ceilLog2Aux : Nat → Nat → Nat
  | 0, _ => 0
  | fuel + 1, n => if n ≤ 1 then 0 else ceilLog2Aux fuel ((n + 1) / 2) + 1

/-- Ceiling base-2 logarithm, the amount of bits needed to address
`n` banks. -/
def ceilLog2 (n : Nat) : Nat := ceilLog2Aux n n

/-- MBC::mask_bank_number from core/src/memory.rs.  The source computes
`ceil(log2(bank_amount))` through `f32::log`/`ceil`, which equals
`ceilLog2 bank_amount` for every representable bank count
(`bank_amount = 0` gives `-inf`, whose `as usize` cast saturates to 0,
matching `ceilLog2 0 = 0`). -/
def MBC.mask_bank_number (_m : MBC) (number bank_amount : Nat) : Nat :=
  let bit_amount := min (ceilLog2 bank_amount) 8
  if bit_amount = 0 then 0 else number &&& (0xFF >>> (8 - bit_amount))

/-- MBC::read_nombc from core/src/memory.rs.  Note the RAM branch passes
the raw bus address straight to `read_ram` without subtracting 0xA000. -/
def MBC.read_nombc (m : MBC) (address : Nat) : Nat :=
  if address ≤ 0x7FFF then m.read_rom address
  else if 0xA000 ≤ address ∧ address ≤ 0xBFFF then m.read_ram address
  else 0xFF

/-- MBC::write_nombc from core/src/memory.rs.  As in `read_nombc`, the raw
bus address is passed to `write_ram` without subtracting 0xA000. -/
def MBC.write_nombc (m : MBC) (address value : Nat) : MBC :=
  if 0xA000 ≤ address ∧ address ≤ 0xBFFF then m.write_ram address value else m

/-- MBC::read_mbc1 from core/src/memory.rs.  The local mutable `address`
of the source is threaded as `a1`/`a2`. -/
def MBC.read_mbc1 (m : MBC) (address : Nat) : Nat :=
  if address ≤ 0x7FFF then
    let a1 := if 0x4000 ≤ address then address - 0x4000 + m.rom_bank * 0x4000 else address
    let a2 :=
      if 32 < m.info.rom_banks ∧ (0x4000 ≤ a1 ∨ m.advanced_banking) then
        let high_address := m.ram_bank &&& (if m.info.rom_banks ≤ 64 then 0b01 else 0b11)
        a1 + 0x20 * high_address * 0x4000
      else a1
    m.read_rom a2
  else if 0xA000 ≤ address ∧ address ≤ 0xBFFF then
    if !m.ram_enabled then 0xFF
    else
      let a1 := address - 0xA000
      let a2 :=
        if m.advanced_banking then
          a1 + m.mask_bank_number m.ram_bank m.info.ram_banks * 0x2000
        else a1
      m.read_ram a2
  else 0xFF

/-- MBC::write_mbc1 from core/src/memory.rs. -/
def MBC.write_mbc1 (m : MBC) (address value : Nat) : MBC :=
  if address ≤ 0x1FFF then
    { m with ram_enabled := value &&& 0x0F == 0x0A }
  else if address ≤ 0x3FFF then
    let masked := m.mask_bank_number value (min m.info.rom_banks 32)
    let masked := if value &&& 0b11111 = 0 then masked + 1 else masked
    { m with rom_bank := masked }
  else if address ≤ 0x5FFF then
    { m with ram_bank := value &&& 0b11 }
  else if address ≤ 0x7FFF then
    { m with advanced_banking := 0 < value &&& 0b1 }
  else if 0xA000 ≤ address ∧ address ≤ 0xBFFF then
    if !m.ram_enabled then m
    else
      let a1 := address - 0xA000
      let a2 :=
        if m.advanced_banking ∧ 1 < m.info.ram_banks then a1 + m.ram_bank * 0x2000
        else a1
      m.write_ram a2 value
  else m

/-- Memory struct from core/src/memory.rs. -/
structure Memory where
  wram : List Nat
  hram : List Nat
  info : CartridgeInfo
  mbc : MBC
  deriving DecidableEq, Repr

/-- Memory::new from core/src/memory.rs.  The result is `none` when the
Rust code panics: the slice `&rom[0x0100..=0x014F]` requires
`rom.len() ≥ 0x0150`, while the guard only rejects `rom.len() < 0x014F`,
so an input of length exactly 0x014F reaches the slice and panics. -/
def Memory.new (rom : List Nat) : Option (Except MemoryInitializationError Memory) :=
  if rom.length < 0x014F then
    some (.error ⟨.NoHeader⟩)
  else if rom.length < 0x0150 then
    -- slice indexing `rom[0x0100..=0x014F]` is out of range: panic
    none
  else
    let info := CartridgeInfo.from_header ((rom.drop 0x0100).take 0x50)
    if info.mbc = .NoMBC ∨ info.mbc = .MBC1 ∨ info.mbc = .MBC3 ∨ info.mbc = .MBC5 then
      some (.ok
        { wram := List.replicate 0x2000 0
          hram := List.replicate 0x7F 0
          mbc := MBC.init rom info
          info := info })
    else
      some (.error ⟨.UnimplementedMBC info.mbc⟩)

/-- Timer struct from core/src/timer.rs.  `control` holds the raw TAC
bits kept by `TimerControl::from_bits_truncate` (mask 0b111);
`overflow_delay` is the Rust `i8`. -/
structure Timer where
  div : Nat
  tima : Nat
  tma : Nat
  control : Nat
  enabled : Bool
  request_interrupt : Bool
  div_bit : Nat
  previous_and : Bool
  overflow_delay : Int
  deriving DecidableEq, Repr

/-- Timer::new from core/src/timer.rs. -/
def Timer.new : Timer :=
  { div := 0
    tima := 0
    tma := 0
    control := 0
    enabled := false
    div_bit := 9
    previous_and := false
    request_interrupt := false
    overflow_delay := 0 }

/-- Timer::cycle from core/src/timer.rs: one T-cycle of the timer. -/
def Timer.cycle (t : Timer) : Timer :=
  let t := { t with request_interrupt := false }
  let t :=
    if (0 : Int) ≤ t.overflow_delay then
      let t :=
        if t.overflow_delay = (0 : Int) then { t with tima := t.tma, request_interrupt := true }
        else t
      { t with overflow_delay := t.overflow_delay - 1 }
    else t
  let t := { t with div := (t.div + 1) % 0x10000 }
  let div_val : Nat := (t.div >>> t.div_bit) &&& 0b1
  let and : Bool := decide (0 < (if t.enabled then (1 : Nat) else 0) &&& div_val)
  let t :=
    if !and && t.previous_and then
      let overflow : Bool := t.tima == 0xFF
      let t := { t with tima := (t.tima + 1) % 256 }
      if overflow then { t with overflow_delay := 3 } else t
    else t
  { t with previous_and := and }

/-- Timer MemoryAccess::mem_read from core/src/timer.rs.  The source's
wildcard arm is `unreachable!()`: the bus only routes 0xFF04-0xFF07
here, so the 0xFF default is never produced. -/
def Timer.mem_read (t : Timer) (address : Nat) : Nat :=
  if address = 0xFF04 then (t.div >>> 8) % 256
  else if address = 0xFF05 then t.tima
  else if address = 0xFF06 then t.tma
  else if address = 0xFF07 then t.control
  else 0xFF

/-- Timer MemoryAccess::mem_write from core/src/timer.rs.  The source's
wildcard arm is `unreachable!()`: the bus only routes 0xFF04-0xFF07
here, so the identity default is never taken. -/
def Timer.mem_write (t : Timer) (address value : Nat) : Timer :=
  if address = 0xFF04 then { t with div := 0 }
  else if address = 0xFF05 then { t with tima := value, overflow_delay := -1 }
  else if address = 0xFF06 then { t with tma := value }
  else if address = 0xFF07 then
    let control := value &&& 0b111
    { t with
      control := control
      enabled := 0 < control &&& 0b100
      div_bit :=
        match control &&& 0b11 with
        | 0b00 => 9
        | 0b01 => 3
        | 0b10 => 5
        | _ => 7 }
  else t

/-- Timer driver loop: the CPU `cycle` pump (cpu.rs) calls `timer.cycle()`
once per T-cycle and, whenever `timer.request_interrupt` is set right
after a tick, ORs the TIMER bit into IF.  `requested` accumulates whether
any tick of the run requested the interrupt. -/
def Timer.run (t : Timer) (requested : Bool) : Nat → Timer × Bool
  | 0 => (t, requested)
  | n + 1 =>
    let t' := t.cycle
    Timer.run t' (requested || t'.request_interrupt) n

/-- Scenario of claim C5 / spec §8.2: TMA and TIMA set to 0xFE through
the timer registers, then TAC set to 0x05 (enable, rate select 1). -/
def timerScenario : Timer :=
  ((Timer.new.mem_write 0xFF06 0xFE).mem_write 0xFF05 0xFE).mem_write 0xFF07 0x05

/-- Checked u16 addition: Rust `+` on u16 overflows past 0xFFFF, which
panics under debug assertions instead of wrapping (wrapping is only
guaranteed by `wrapping_add`, used elsewhere in the same file). -/
def checkedAddU16 (a b : Nat) : Option Nat :=
  if a + b ≤ 0xFFFF then some (a + b) else none

/-- Checked u16 subtraction: Rust `-` on u16 underflows below 0, which
panics under debug assertions instead of wrapping. -/
def checkedSubU16 (a b : Nat) : Option Nat :=
  if b ≤ a then some (a - b) else none

/-- CPU::read_16 from core/src/cpu/readwrite.rs:
`u16::from_le_bytes([self.read(address), self.read(address + 1)])`.
The bus read `CPU::read` is total (an exhaustive match whose default arm
returns 0xFF), abstracted here as `read`; `address + 1` is the source's
unchecked u16 addition. -/
def read_16 (read : Nat → Nat) (address : Nat) : Option Nat :=
  (checkedAddU16 address 1).map fun a1 => read address + 256 * read a1

/-- CPU::read_operand_16 from core/src/cpu/readwrite.rs: the program
counter advances by `wrapping_add(2)` and the operand is read at
`self.reg.pc - 1` with the source's unchecked u16 subtraction.  Returns
the new program counter and the operand. -/
def read_operand_16 (read : Nat → Nat) (pc : Nat) : Option (Nat × Nat) :=
  let pc' := (pc + 2) % 0x10000
  (checkedSubU16 pc' 1).bind fun a => (read_16 read a).map fun v => (pc', v)

/-- CPU::pop from core/src/cpu/readwrite.rs: reads 16 bits at SP, then
advances SP by `wrapping_add(2)`.  Returns the new stack pointer and the
popped value. -/
def pop (read : Nat → Nat) (sp : Nat) : Option (Nat × Nat) :=
  (read_16 read sp).map fun v => ((sp + 2) % 0x10000, v)

/-- SquareChannel struct from core/src/apu.rs. -/
structure SquareChannel where
  channel_on : Bool
  dac_on : Bool
  period_div : Nat
  duty_cycle_pointer : Nat
  length_timer : Nat
  volume : Nat
  period : Nat
  sweep_timer : Nat
  envelope_timer : Nat
  sweep_pace : Nat
  sweep_increase : Bool
  sweep_step : Nat
  duty_cycle_index : Nat
  initial_length_timer : Nat
  length_timer_enabled : Bool
  initial_period : Nat
  initial_volume : Nat
  envelope_increase : Bool
  envelope_pace : Nat
  deriving DecidableEq, Repr

/-- SquareChannel::new from core/src/apu.rs. -/
def SquareChannel.new : SquareChannel :=
  { channel_on := false
    dac_on := false
    period_div := 0
    duty_cycle_pointer := 0
    length_timer := 0
    volume := 0
    period := 0
    sweep_timer := 1
    envelope_timer := 1
    sweep_pace := 0
    sweep_increase := true
    sweep_step := 0
    duty_cycle_index := 0
    initial_length_timer := 0
    length_timer_enabled := false
    initial_period := 0
    initial_volume := 0
    envelope_increase := false
    envelope_pace := 0 }

/-- SquareChannel::update_length_timer from core/src/apu.rs. -/
def SquareChannel.update_length_timer (c : SquareChannel) : SquareChannel :=
  if c.length_timer_enabled then
    if c.length_timer = 0 then { c with channel_on := false }
    else { c with length_timer := c.length_timer - 1 }
  else c

/-- SquareChannel::update_sweep from core/src/apu.rs. -/
def SquareChannel.update_sweep (c : SquareChannel) : SquareChannel :=
  if c.sweep_pace = 0 then c
  else if c.sweep_timer < c.sweep_pace then { c with sweep_timer := c.sweep_timer + 1 }
  else
    let c := { c with sweep_timer := 1 }
    let period_change := c.period / 2 ^ c.sweep_step
    let c :=
      if c.sweep_increase then { c with period := c.period + period_change }
      else if 0 < c.volume then { c with period := c.period - period_change }
      else c
    if 0x7FF < c.period then { c with period := 0x7FF, channel_on := false }
    else c

/-- SquareChannel::update_envelope from core/src/apu.rs. -/
def SquareChannel.update_envelope (c : SquareChannel) : SquareChannel :=
  if c.envelope_pace = 0 then c
  else if c.envelope_timer < c.envelope_pace then
    { c with envelope_timer := c.envelope_timer + 1 }
  else
    let c := { c with envelope_timer := 1 }
    if c.envelope_increase then
      if c.volume < 15 then { c with volume := c.volume + 1 } else c
    else if 0 < c.volume then { c with volume := c.volume - 1 }
    else c

/-- SquareChannel::update_period from core/src/apu.rs. -/
def SquareChannel.update_period (c : SquareChannel) : SquareChannel :=
  if c.period_div = 0x7FF then
    let c :=
      if c.duty_cycle_pointer = 7 then { c with duty_cycle_pointer := 0 }
      else { c with duty_cycle_pointer := c.duty_cycle_pointer + 1 }
    { c with period_div := c.period }
  else { c with period_div := c.period_div + 1 }

/-- Channel::trigger for SquareChannel from core/src/apu.rs. -/
def SquareChannel.trigger (c : SquareChannel) : SquareChannel :=
  { c with
    channel_on := c.dac_on
    period := c.initial_period
    period_div := c.initial_period
    volume := c.initial_volume
    envelope_timer := 1
    sweep_timer := 1
    length_timer := 64 }

/-- Channel::read_register for SquareChannel from core/src/apu.rs. -/
def SquareChannel.read_register (c : SquareChannel) (address : Nat) : Nat :=
  if address = 0xFF10 then
    (c.sweep_pace <<< 4) ||| ((!c.sweep_increase).toNat <<< 3) ||| c.sweep_step ||| 0x80
  else if address = 0xFF11 ∨ address = 0xFF16 then
    (c.duty_cycle_index <<< 6) ||| 0x3F
  else if address = 0xFF12 ∨ address = 0xFF17 then
    (c.initial_volume <<< 4) ||| (c.envelope_increase.toNat <<< 3) ||| c.envelope_pace
  else if address = 0xFF13 ∨ address = 0xFF18 then 0xFF
  else if address = 0xFF14 ∨ address = 0xFF19 then
    (c.length_timer_enabled.toNat <<< 6) ||| 0xBF
  else 0xFF

/-- Channel::write_register for SquareChannel from core/src/apu.rs.  The
wildcard arm of the source is `unreachable!()`; `APU::mem_write` only
routes the addresses matched here, so the identity default is never
taken. -/
def SquareChannel.write_register (c : SquareChannel) (address value : Nat) : SquareChannel :=
  if address = 0xFF10 then
    { c with
      sweep_pace := value >>> 4
      sweep_increase := value &&& 0b1000 == 0
      sweep_step := value &&& 0b0111 }
  else if address = 0xFF11 ∨ address = 0xFF16 then
    { c with
      duty_cycle_index := value >>> 6
      initial_length_timer := 64 - (value &&& 0b111111) }
  else if address = 0xFF12 ∨ address = 0xFF17 then
    let c :=
      { c with
        initial_volume := value >>> 4
        envelope_increase := 0 < value &&& 0b1000
        envelope_pace := value &&& 0b0111 }
    let c := { c with dac_on := decide (0 < c.initial_volume) || c.envelope_increase }
    if !c.dac_on then { c with channel_on := false } else c
  else if address = 0xFF13 ∨ address = 0xFF18 then
    { c with initial_period := (c.initial_period &&& 0xFF00) ||| value }
  else if address = 0xFF14 ∨ address = 0xFF19 then
    let c :=
      { c with
        length_timer_enabled := 0 < value &&& 0b01000000
        initial_period := (c.initial_period &&& 0xFF) ||| ((value &&& 0b111) <<< 8) }
    if 0 < value &&& 0b10000000 then c.trigger else c
  else c

/-- WaveChannel struct from core/src/apu.rs. -/
structure WaveChannel where
  dac_on : Bool
  channel_on : Bool
  period_div : Nat
  wave_pointer : Nat
  length_timer : Nat
  output_level : Nat
  period : Nat
  initial_length_timer : Nat
  length_timer_enabled : Bool
  initial_period : Nat
  wave_ram : List Nat
  deriving DecidableEq, Repr

/-- WaveChannel::new from core/src/apu.rs. -/
def WaveChannel.new : WaveChannel :=
  { dac_on := false
    channel_on := false
    period_div := 0
    wave_pointer := 0
    length_timer := 0
    output_level := 0
    period := 0
    initial_length_timer := 0
    length_timer_enabled := false
    initial_period := 0
    wave_ram := List.replicate 0x10 0 }

/-- WaveChannel::update_length_timer from core/src/apu.rs. -/
def WaveChannel.update_length_timer (c : WaveChannel) : WaveChannel :=
  if c.length_timer_enabled then
    if c.length_timer = 0 then { c with channel_on := false }
    else { c with length_timer := c.length_timer - 1 }
  else c

/-- WaveChannel::update_period from core/src/apu.rs. -/
def WaveChannel.update_period (c : WaveChannel) : WaveChannel :=
  if c.period_div = 0x7FF then
    let c :=
      if c.wave_pointer = 31 then { c with wave_pointer := 0 }
      else { c with wave_pointer := c.wave_pointer + 1 }
    { c with period_div := c.period }
  else { c with period_div := c.period_div + 1 }

/-- Channel::trigger for WaveChannel from core/src/apu.rs. -/
def WaveChannel.trigger (c : WaveChannel) : WaveChannel :=
  { c with
    channel_on := c.dac_on
    period := c.initial_period
    period_div := c.initial_period
    length_timer := 256
    wave_pointer := 0 }

/-- Channel::read_register for WaveChannel from core/src/apu.rs. -/
def WaveChannel.read_register (c : WaveChannel) (address : Nat) : Nat :=
  if address = 0xFF1A then (c.dac_on.toNat <<< 7) ||| 0x7F
  else if address = 0xFF1B then 0xFF
  else if address = 0xFF1C then (c.output_level <<< 5) ||| 0x9F
  else if address = 0xFF1D then 0xFF
  else if address = 0xFF1E then (c.length_timer_enabled.toNat <<< 6) ||| 0xBF
  else if 0xFF30 ≤ address ∧ address ≤ 0xFF3F then c.wave_ram.getD (address - 0xFF30) 0
  else 0xFF

/-- Channel::write_register for WaveChannel from core/src/apu.rs.  The
source's wildcard arm is `unreachable!()` and never taken. -/
def WaveChannel.write_register (c : WaveChannel) (address value : Nat) : WaveChannel :=
  if address = 0xFF1A then
    let c := { c with dac_on := 0 < value &&& 0b10000000 }
    if !c.dac_on then { c with channel_on := false } else c
  else if address = 0xFF1B then { c with initial_length_timer := 256 - value }
  else if address = 0xFF1C then { c with output_level := (value >>> 5) &&& 0b11 }
  else if address = 0xFF1D then
    { c with initial_period := (c.initial_period &&& 0xFF00) ||| value }
  else if address = 0xFF1E then
    let c :=
      { c with
        length_timer_enabled := 0 < value &&& 0b01000000
        initial_period := (c.initial_period &&& 0xFF) ||| ((value &&& 0b111) <<< 8) }
    if 0 < value &&& 0b10000000 then c.trigger else c
  else if 0xFF30 ≤ address ∧ address ≤ 0xFF3F then
    { c with wave_ram := c.wave_ram.set (address - 0xFF30) value }
  else c

/-- NoiseChannel struct from core/src/apu.rs. -/
structure NoiseChannel where
  dac_on : Bool
  channel_on : Bool
  duty_cycle_pointer : Nat
  length_timer : Nat
  volume : Nat
  envelope_timer : Nat
  lfsr : Nat
  lfsr_bit : Bool
  lfsr_timer : Nat
  lfsr_pace : Nat
  clock_shift : Nat
  short_lfsr : Bool
  clock_divider : Nat
  initial_length_timer : Nat
  length_timer_enabled : Bool
  initial_volume : Nat
  envelope_increase : Bool
  envelope_pace : Nat
  deriving DecidableEq, Repr

/-- NoiseChannel::new from core/src/apu.rs. -/
def NoiseChannel.new : NoiseChannel :=
  { channel_on := false
    dac_on := false
    duty_cycle_pointer := 0
    length_timer := 0
    volume := 0
    envelope_timer := 1
    lfsr := 0
    lfsr_bit := false
    lfsr_timer := 1
    lfsr_pace := 1
    clock_shift := 0
    short_lfsr := false
    clock_divider := 0
    initial_length_timer := 0
    length_timer_enabled := false
    initial_volume := 0
    envelope_increase := false
    envelope_pace := 0 }

/-- NoiseChannel::update_length_timer from core/src/apu.rs. -/
def NoiseChannel.update_length_timer (c : NoiseChannel) : NoiseChannel :=
  if c.length_timer_enabled then
    if c.length_timer = 0 then { c with channel_on := false }
    else { c with length_timer := c.length_timer - 1 }
  else c

/-- NoiseChannel::update_envelope from core/src/apu.rs. -/
def NoiseChannel.update_envelope (c : NoiseChannel) : NoiseChannel :=
  if c.envelope_pace = 0 then c
  else if c.envelope_timer < c.envelope_pace then
    { c with envelope_timer := c.envelope_timer + 1 }
  else
    let c := { c with envelope_timer := 1 }
    if c.envelope_increase then
      if c.volume < 15 then { c with volume := c.volume + 1 } else c
    else if 0 < c.volume then { c with volume := c.volume - 1 }
    else c

/-- NoiseChannel::update_lfsr from core/src/apu.rs. -/
def NoiseChannel.update_lfsr (c : NoiseChannel) : NoiseChannel :=
  if c.lfsr_timer < c.lfsr_pace then { c with lfsr_timer := c.lfsr_timer + 1 }
  else
    let c := { c with lfsr_timer := 1 }
    let xnor : Bool := c.lfsr &&& 0b1 == (c.lfsr &&& 0b10) >>> 1
    let c :=
      if xnor then
        let l := c.lfsr ||| (1 <<< 15)
        let l := if c.short_lfsr then l ||| (1 <<< 7) else l
        { c with lfsr := l }
      else c
    let c := { c with lfsr := c.lfsr >>> 1 }
    { c with lfsr_bit := decide (0 < c.lfsr &&& 0b1) }

/-- Channel::trigger for NoiseChannel from core/src/apu.rs. -/
def NoiseChannel.trigger (c : NoiseChannel) : NoiseChannel :=
  { c with
    channel_on := c.dac_on
    lfsr := 0
    volume := c.initial_volume
    envelope_timer := 1
    length_timer := 64 }

/-- Channel::read_register for NoiseChannel from core/src/apu.rs. -/
def NoiseChannel.read_register (c : NoiseChannel) (address : Nat) : Nat :=
  if address = 0xFF20 then 0xFF
  else if address = 0xFF21 then
    (c.initial_volume <<< 4) ||| (c.envelope_increase.toNat <<< 3) ||| c.envelope_pace
  else if address = 0xFF22 then
    (c.clock_shift <<< 4) ||| (c.short_lfsr.toNat <<< 3) ||| c.clock_divider
  else if address = 0xFF23 then (c.length_timer_enabled.toNat <<< 6) ||| 0xBF
  else 0xFF

/-- Channel::write_register for NoiseChannel from core/src/apu.rs.  The
source's wildcard arm is `unreachable!()` and never taken. -/
def NoiseChannel.write_register (c : NoiseChannel) (address value : Nat) : NoiseChannel :=
  if address = 0xFF20 then { c with initial_length_timer := 64 - (value &&& 0b111111) }
  else if address = 0xFF21 then
    let c :=
      { c with
        initial_volume := value >>> 4
        envelope_increase := 0 < value &&& 0b1000
        envelope_pace := value &&& 0b0111 }
    let c := { c with dac_on := decide (0 < c.initial_volume) || c.envelope_increase }
    if !c.dac_on then { c with channel_on := false } else c
  else if address = 0xFF22 then
    let c :=
      { c with
        clock_shift := value >>> 4
        short_lfsr := 0 < value &&& 0b1000
        clock_divider := value &&& 0b0111 }
    { c with
      lfsr_pace :=
        if c.clock_divider = 0 then 2 ^ c.clock_shift / 2
        else c.clock_divider * 2 ^ c.clock_shift }
  else if address = 0xFF23 then
    let c := { c with length_timer_enabled := 0 < value &&& 0b01000000 }
    if 0 < value &&& 0b10000000 then c.trigger else c
  else c

/-- APU struct from core/src/apu.rs.  The `f32` output stage
(`hpf_capacitor_charge_factor`, the two capacitor charges) and the
sample ring buffer contents are host-side floating-point output state
that no integer register or channel flag ever reads back; they are left
out of the embedding.  `has_buffer` stands for
`buffer_producer.is_some()`, which gates the sampling branch of
`cycle`. -/
structure APU where
  has_buffer : Bool
  sample_delay : Nat
  channels : Nat
  is_on : Bool
  sample_delay_counter : Nat
  period_delay_counter : Nat
  div_apu : Nat
  last_div_bit : Bool
  pan_options : Nat
  left_volume : Nat
  right_volume : Nat
  square_channel_1 : SquareChannel
  square_channel_2 : SquareChannel
  wave_channel : WaveChannel
  noise_channel : NoiseChannel
  deriving DecidableEq, Repr

/-- APU::new from core/src/apu.rs. -/
def APU.new : APU :=
  { has_buffer := false
    sample_delay := 0
    channels := 0
    is_on := true
    sample_delay_counter := 0
    period_delay_counter := 0
    div_apu := 0
    last_div_bit := false
    pan_options := 0
    left_volume := 1
    right_volume := 1
    square_channel_1 := SquareChannel.new
    square_channel_2 := SquareChannel.new
    wave_channel := WaveChannel.new
    noise_channel := NoiseChannel.new }

/-- First section of APU::cycle from core/src/apu.rs: increment DIV-APU
on a falling edge of divider bit 12 and fan out length, sweep and
envelope updates, then latch the divider bit. -/
def APU.cycle_frame_sequencer (a : APU) (timer_div : Nat) : APU :=
  let div_bit : Bool := decide (0 < timer_div &&& 0b1000000000000)
  let a : APU :=
    if a.last_div_bit && !div_bit then
      let a : APU := { a with div_apu := (a.div_apu + 1) % 256 }
      if a.div_apu % 2 = 0 then
        let a : APU :=
          { a with
            square_channel_1 := a.square_channel_1.update_length_timer
            square_channel_2 := a.square_channel_2.update_length_timer
            wave_channel := a.wave_channel.update_length_timer
            noise_channel := a.noise_channel.update_length_timer }
        if a.div_apu % 4 = 0 then
          let a : APU := { a with square_channel_1 := a.square_channel_1.update_sweep }
          if a.div_apu % 8 = 0 then
            { a with
              square_channel_1 := a.square_channel_1.update_envelope
              square_channel_2 := a.square_channel_2.update_envelope
              noise_channel := a.noise_channel.update_envelope }
          else a
        else a
      else a
    else a
  { a with last_div_bit := div_bit }

/-- Second section of APU::cycle from core/src/apu.rs: advance the period
delay counter and run the channel period / LFSR updates at their
rates. -/
def APU.cycle_period_updates (a : APU) : APU :=
  let a : APU := { a with period_delay_counter := (a.period_delay_counter + 1) % 256 }
  if a.period_delay_counter % 2 = 0 then
    let a : APU := { a with wave_channel := a.wave_channel.update_period }
    if a.period_delay_counter % 4 = 0 then
      let a : APU :=
        { a with
          square_channel_1 := a.square_channel_1.update_period
          square_channel_2 := a.square_channel_2.update_period }
      if a.period_delay_counter % 16 = 0 then
        { a with noise_channel := a.noise_channel.update_lfsr }
      else a
    else a
  else a

/-- Third section of APU::cycle from core/src/apu.rs: the sample pacing.
When the delay counter has not yet reached the configured delay it just
advances; otherwise, with a ring producer present, the mixed sample is
computed from channel state and pushed to the ring (f32 output external
to the APU state) and the counter resets. -/
def APU.cycle_sampling (a : APU) : APU :=
  if a.sample_delay_counter < a.sample_delay then
    { a with sample_delay_counter := a.sample_delay_counter + 1 }
  else if a.has_buffer then
    { a with sample_delay_counter := 0 }
  else a

/-- APU::cycle from core/src/apu.rs: one T-cycle of the APU, driven by
the timer's internal divider, as the sequence of its three sections. -/
def APU.cycle (a : APU) (timer_div : Nat) : APU :=
  ((a.cycle_frame_sequencer timer_div).cycle_period_updates).cycle_sampling

/-- APU::turn_off from core/src/apu.rs. -/
def APU.turn_off (a : APU) : APU :=
  { a with
    is_on := false
    sample_delay_counter := 0
    period_delay_counter := 0
    div_apu := 0
    last_div_bit := false
    pan_options := 0
    left_volume := 1
    right_volume := 1
    square_channel_1 := SquareChannel.new
    square_channel_2 := SquareChannel.new
    wave_channel := { WaveChannel.new with wave_ram := a.wave_channel.wave_ram }
    noise_channel := NoiseChannel.new }

/-- APU MemoryAccess::mem_read from core/src/apu.rs.  In the NR52 arm the
source composes bit 3 from `noise_channel.channel_on`, bit 2 from
`wave_channel.dac_on`, bit 1 from `square_channel_2.channel_on` and
bit 0 from `square_channel_1.channel_on`. -/
def APU.mem_read (a : APU) (address : Nat) : Nat :=
  if 0xFF10 ≤ address ∧ address ≤ 0xFF14 then a.square_channel_1.read_register address
  else if 0xFF16 ≤ address ∧ address ≤ 0xFF19 then a.square_channel_2.read_register address
  else if (0xFF1A ≤ address ∧ address ≤ 0xFF1E) ∨ (0xFF30 ≤ address ∧ address ≤ 0xFF3F) then
    a.wave_channel.read_register address
  else if 0xFF20 ≤ address ∧ address ≤ 0xFF23 then a.noise_channel.read_register address
  else if address = 0xFF24 then ((a.left_volume - 1) <<< 4) ||| (a.right_volume - 1)
  else if address = 0xFF25 then a.pan_options
  else if address = 0xFF26 then
    (a.is_on.toNat <<< 7)
      ||| (a.noise_channel.channel_on.toNat <<< 3)
      ||| (a.wave_channel.dac_on.toNat <<< 2)
      ||| (a.square_channel_2.channel_on.toNat <<< 1)
      ||| a.square_channel_1.channel_on.toNat
      ||| 0x70
  else 0xFF

/-- APU MemoryAccess::mem_write from core/src/apu.rs. -/
def APU.mem_write (a : APU) (address value : Nat) : APU :=
  if !a.is_on ∧ ¬(address = 0xFF26 ∨ (0xFF30 ≤ address ∧ address ≤ 0xFF3F)) then a
  else if 0xFF10 ≤ address ∧ address ≤ 0xFF14 then
    { a with square_channel_1 := a.square_channel_1.write_register address value }
  else if 0xFF16 ≤ address ∧ address ≤ 0xFF19 then
    { a with square_channel_2 := a.square_channel_2.write_register address value }
  else if (0xFF1A ≤ address ∧ address ≤ 0xFF1E) ∨ (0xFF30 ≤ address ∧ address ≤ 0xFF3F) then
    { a with wave_channel := a.wave_channel.write_register address value }
  else if 0xFF20 ≤ address ∧ address ≤ 0xFF23 then
    { a with noise_channel := a.noise_channel.write_register address value }
  else if address = 0xFF24 then
    { a with
      left_volume := ((value >>> 4) &&& 0b111) + 1
      right_volume := (value &&& 0b111) + 1 }
  else if address = 0xFF25 then { a with pan_options := value }
  else if address = 0xFF26 then
    let on_val : Bool := decide (0 < value &&& 0b10000000)
    if a.is_on && !on_val then a.turn_off else { a with is_on := on_val }
  else a

/-- LCDControl bit masks from core/src/ppu.rs. -/
def LCDC_ENABLE : Nat := 0b10000000

/-- LCDControl::WINDOW_TILE_MAP from core/src/ppu.rs. -/
def LCDC_WINDOW_TILE_MAP : Nat := 0b01000000

/-- LCDControl::WINDOW_ENABLE from core/src/ppu.rs. -/
def LCDC_WINDOW_ENABLE : Nat := 0b00100000

/-- LCDControl::TILE_DATA_AREA from core/src/ppu.rs. -/
def LCDC_TILE_DATA_AREA : Nat := 0b00010000

/-- LCDControl::BG_TILE_MAP from core/src/ppu.rs. -/
def LCDC_BG_TILE_MAP : Nat := 0b00001000

/-- LCDControl::OBJ_SIZE from core/src/ppu.rs. -/
def LCDC_OBJ_SIZE : Nat := 0b00000100

/-- LCDControl::OBJ_ENABLE from core/src/ppu.rs. -/
def LCDC_OBJ_ENABLE : Nat := 0b00000010

/-- LCDControl::BG_WINDOW_ENABLE from core/src/ppu.rs. -/
def LCDC_BG_WINDOW_ENABLE : Nat := 0b00000001

/-- STATEnable::LYC from core/src/ppu.rs. -/
def STAT_LYC : Nat := 0b01000000

/-- STATEnable::Mode2 from core/src/ppu.rs. -/
def STAT_Mode2 : Nat := 0b00100000

/-- STATEnable::Mode1 from core/src/ppu.rs. -/
def STAT_Mode1 : Nat := 0b00010000

/-- STATEnable::Mode0 from core/src/ppu.rs. -/
def STAT_Mode0 : Nat := 0b00001000

/-- InterruptFlag::VBLANK from cpu/interrupts.rs. -/
def IF_VBLANK : Nat := 0b00001

/-- InterruptFlag::LCD from cpu/interrupts.rs. -/
def IF_LCD : Nat := 0b00010

/-- InterruptFlag::TIMER from cpu/interrupts.rs. -/
def IF_TIMER : Nat := 0b00100

/-- InterruptFlag::SERIAL from cpu/interrupts.rs. -/
def IF_SERIAL : Nat := 0b01000

/-- InterruptFlag::JOYPAD from cpu/interrupts.rs. -/
def IF_JOYPAD : Nat := 0b10000

/-- SpriteFlags::PRIORITY from core/src/ppu.rs. -/
def SPRITE_PRIORITY : Nat := 0b10000000

/-- SpriteFlags::Y_FLIP from core/src/ppu.rs. -/
def SPRITE_Y_FLIP : Nat := 0b01000000

/-- SpriteFlags::X_FLIP from core/src/ppu.rs. -/
def SPRITE_X_FLIP : Nat := 0b00100000

/-- SpriteFlags::PALETTE from core/src/ppu.rs. -/
def SPRITE_PALETTE : Nat := 0b00010000

/-- OAMSprite struct from core/src/ppu.rs; `flags` holds the raw byte. -/
structure OAMSprite where
  y : Nat
  x : Nat
  tile_index : Nat
  flags : Nat
  deriving DecidableEq, Repr

/-- PPUMode enum from core/src/ppu.rs. -/
inductive PPUMode where
  | HBlank
  | VBlank
  | OAMScan
  | Drawing
  deriving DecidableEq, Repr

/-- PPUState enum from core/src/ppu.rs. -/
inductive PPUState where
  | Active
  | Disabled
  | Starting
  deriving DecidableEq, Repr

/-- DMGPalettes struct from core/src/ppu.rs. -/
structure DMGPalettes where
  bg : Nat
  obj0 : Nat
  obj1 : Nat
  deriving DecidableEq, Repr

/-- DoubleBuffer of the external `double_buffer` crate.
Modelled from the spec: §9 Design notes — "Two equal framebuffers with a
swap index.  Writes always target the back buffer; `get_display_buffer`
reads the front.  Swap happens exactly at the VBlank boundary." -/
structure DoubleBuffer where
  front : List Nat
  back : List Nat
  deriving DecidableEq, Repr

/-- DoubleBuffer::swap exchanges front and back buffers. -/
def DoubleBuffer.swap (d : DoubleBuffer) : DoubleBuffer :=
  { front := d.back, back := d.front }

/-- PPU struct from core/src/ppu.rs.  The OAM-DMA request fields are not
read by `PPU::cycle` and are omitted. -/
structure PPU where
  state : PPUState
  display : DoubleBuffer
  vram : List Nat
  oam : List OAMSprite
  lcdc : Nat
  lx : Nat
  ly : Nat
  bg_x : Nat
  bg_y : Nat
  win_x : Nat
  win_y : Nat
  win_line : Nat
  palettes : DMGPalettes
  interrupt_request : Nat
  stat_enable : Nat
  mode : PPUMode
  lyc : Nat
  deriving DecidableEq, Repr

/-- PPU::update_mode from core/src/ppu.rs. -/
def PPU.update_mode (p : PPU) (mode : PPUMode) : PPU :=
  let p := { p with mode := mode }
  if (mode = .OAMScan ∧ 0 < p.stat_enable &&& STAT_Mode2)
      ∨ (mode = .VBlank ∧ 0 < p.stat_enable &&& STAT_Mode1)
      ∨ (mode = .HBlank ∧ 0 < p.stat_enable &&& STAT_Mode0) then
    { p with interrupt_request := p.interrupt_request ||| IF_LCD }
  else p

/-- PPU::get_palette_color from core/src/ppu.rs. -/
def PPU.get_palette_color (_p : PPU) (col_id palette : Nat) : Nat :=
  (palette >>> (2 * col_id)) &&& 0b11

/-- PPU::set_pixel from core/src/ppu.rs.  The source's `&mut self` only
mutates `self.display`, so the embedding maps the display buffer; writes
through the `DoubleBuffer` index go to the back buffer. -/
def PPU.set_pixel (p : PPU) (d : DoubleBuffer) (x y col : Nat) : DoubleBuffer :=
  if p.state = .Starting then d
  else
    let i := (y * 2 * 160 + x * 2) / 32
    let shift := (x % 16) * 2
    let old := d.back.getD i 0
    let v := (old &&& (0xFFFFFFFF ^^^ (0b11 <<< shift))) ||| (col <<< shift)
    { d with back := d.back.set i v }

/-- PPU::get_tile_index from core/src/ppu.rs.  The index
`tile_map_root + tile_map_index` is at most 0x1FFF, so the source's
direct VRAM index is always in bounds. -/
def PPU.get_tile_index (p : PPU) (x y : Nat) (tile_map : Bool) : Nat :=
  let tile_map_index := ((y / 8) * 32 + x / 8) % 0x10000
  let tile_map_root := if tile_map then 0x1C00 else 0x1800
  p.vram.getD (tile_map_root + tile_map_index) 0

/-- PPU::get_tile_color from core/src/ppu.rs.  `byte_index` is at most
0x1FFE for byte-valued `tile_index`, so VRAM indexing is in bounds. -/
def PPU.get_tile_color (p : PPU) (x y tile_index : Nat) (addressing_mode : Bool) : Nat :=
  let byte_index := 16 * tile_index + 2 * (y % 8)
  let byte_index := if addressing_mode ∧ tile_index < 128 then byte_index + 0x1000 else byte_index
  let a_byte := p.vram.getD byte_index 0
  let b_byte := p.vram.getD (byte_index + 1) 0
  let a : Bool := a_byte &&& (0b10000000 >>> (x % 8)) != 0
  let b : Bool := b_byte &&& (0b10000000 >>> (x % 8)) != 0
  a.toNat ||| (b.toNat <<< 1)

/-- Helper of `PPU.get_sprites`: scan OAM in index order, collecting the
first 10 sprites that cover the scanline (`obj_y` is `y + 16`;
`saturating_add` caps a u8 sum at 255). -/
def collectSprites (obj_y sprite_height : Nat) : List OAMSprite → Nat → List OAMSprite
  | [], _ => []
  | s :: rest, found =>
    if obj_y < min (s.y + sprite_height) 255 ∧ s.y ≤ obj_y then
      if found + 1 = 10 then [s]
      else s :: collectSprites obj_y sprite_height rest (found + 1)
    else collectSprites obj_y sprite_height rest found

/-- Stable insertion by ascending `x`, modelling the stable
`sort_by_key(|sprite| sprite.x)` of `PPU::get_sprites`: an element is
placed after every earlier element whose key is less than or equal. -/
def insertByX (s : OAMSprite) : List OAMSprite → List OAMSprite
  | [] => [s]
  | t :: ts => if t.x ≤ s.x then t :: insertByX s ts else s :: t :: ts

/-- PPU::get_sprites from core/src/ppu.rs. -/
def PPU.get_sprites (p : PPU) (y sprite_height : Nat) : List OAMSprite :=
  let obj_y := y + 16
  let sprites := collectSprites obj_y sprite_height p.oam 0
  sprites.foldl (fun acc s => insertByX s acc) []

/-- Sprite-search loop of PPU::draw_scanline from core/src/ppu.rs: find
the first sprite of the sorted per-line list that covers column `x` with
a non-transparent pixel, returning it together with its palette color.
The guards make the i16 tile coordinates of the source non-negative, so
they are Nat subtractions here. -/
def PPU.find_sprite_color (p : PPU) (sprite_height y x : Nat) :
    List OAMSprite → Option (OAMSprite × Nat)
  | [] => none
  | s :: rest =>
    let obj_x := x + 8
    if obj_x < min (s.x + 8) 255 ∧ s.x ≤ obj_x then
      let tile_x := (x + 8 - s.x) % 8
      let tile_x := if 0 < s.flags &&& SPRITE_X_FLIP then 7 - tile_x else tile_x
      let tile_y := (y + 16 - s.y) % sprite_height
      let tile_y := if 0 < s.flags &&& SPRITE_Y_FLIP then sprite_height - 1 - tile_y else tile_y
      let tile_index := s.tile_index
      let (tile_index, tile_y) :=
        if 0 < p.lcdc &&& LCDC_OBJ_SIZE then
          let tile_index := tile_index &&& 0b11111110
          if 8 ≤ tile_y then (tile_index + 1, tile_y - 8) else (tile_index, tile_y)
        else (tile_index, tile_y)
      let col_id := p.get_tile_color tile_x tile_y tile_index false
      if col_id ≠ 0 then
        let palette := if 0 < s.flags &&& SPRITE_PALETTE then p.palettes.obj1 else p.palettes.obj0
        some (s, p.get_palette_color col_id palette)
      else p.find_sprite_color sprite_height y x rest
    else p.find_sprite_color sprite_height y x rest

/-- Background/window color-id computation of PPU::draw_scanline from
core/src/ppu.rs. -/
def PPU.bg_window_color_id (p : PPU) (y x : Nat) : Nat :=
  if 0 < p.lcdc &&& LCDC_WINDOW_ENABLE ∧ p.win_x ≤ x ∧ p.win_y ≤ y then
    let tile := p.get_tile_index (x - p.win_x) p.win_line (0 < p.lcdc &&& LCDC_WINDOW_TILE_MAP)
    p.get_tile_color (x - p.win_x) p.win_line tile (p.lcdc &&& LCDC_TILE_DATA_AREA = 0)
  else
    let bx := (x + p.bg_x) % 256
    let yb := (y + p.bg_y) % 256
    let tile := p.get_tile_index bx yb (0 < p.lcdc &&& LCDC_BG_TILE_MAP)
    p.get_tile_color bx yb tile (p.lcdc &&& LCDC_TILE_DATA_AREA = 0)

/-- Per-column color decision of PPU::draw_scanline from core/src/ppu.rs:
the loop body performs exactly one `set_pixel` per column; this computes
the written color.  Background coordinates wrap in u8 (`wrapping_add`). -/
def PPU.column_color (p : PPU) (sprites : List OAMSprite) (sprite_height y x : Nat) : Nat :=
  let found :=
    if 0 < p.lcdc &&& LCDC_OBJ_ENABLE then p.find_sprite_color sprite_height y x sprites
    else none
  match found with
  | some (s, sprite_col) =>
    if s.flags &&& SPRITE_PRIORITY = 0 then sprite_col
    else if p.lcdc &&& LCDC_BG_WINDOW_ENABLE = 0 then sprite_col
    else
      let col_id := p.bg_window_color_id y x
      if col_id = 0 then sprite_col else p.get_palette_color col_id p.palettes.bg
  | none =>
    if p.lcdc &&& LCDC_BG_WINDOW_ENABLE = 0 then p.get_palette_color 0 p.palettes.bg
    else
      let col_id := p.bg_window_color_id y x
      p.get_palette_color col_id p.palettes.bg

/-- PPU::draw_scanline from core/src/ppu.rs.  The body only mutates the
display (one `set_pixel` per column) and, at the end, `win_line`; the
column loop is a fold over the display buffer. -/
def PPU.draw_scanline (p : PPU) (y : Nat) : PPU :=
  let sprite_height := if 0 < p.lcdc &&& LCDC_OBJ_SIZE then 16 else 8
  let sprites := p.get_sprites y sprite_height
  let disp :=
    (List.range 160).foldl
      (fun d x => p.set_pixel d x y (p.column_color sprites sprite_height y x)) p.display
  { p with
    display := disp
    win_line :=
      if 0 < p.lcdc &&& LCDC_WINDOW_ENABLE ∧ p.win_x < 160 ∧ p.win_y ≤ y then p.win_line + 1
      else p.win_line }

/-- Dot advance within a scanline: the `lx < 455` branch of PPU::cycle
from core/src/ppu.rs. -/
def PPU.cycle_dot (p : PPU) : PPU :=
  let p := { p with lx := p.lx + 1 }
  if p.mode ≠ .VBlank then
    if p.lx = 80 then p.update_mode .Drawing
    else if p.lx = 80 + 172 then p.update_mode .HBlank
    else p
  else p

/-- Scanline-boundary work: the `lx`-wrap branch of PPU::cycle from
core/src/ppu.rs, the `match` on LY.  The source's `self.ly += 1` and
LY=LYC check after the match are inlined into each arm; the `153` arm
returns early and skips them. -/
def PPU.cycle_boundary (p : PPU) : PPU :=
  let p := { p with lx := 0 }
  if p.ly ≤ 143 then
    let p := p.update_mode .OAMScan
    let p := p.draw_scanline p.ly
    let p := { p with ly := p.ly + 1 }
    if 0 < p.stat_enable &&& STAT_LYC ∧ p.lyc = p.ly then
      { p with interrupt_request := p.interrupt_request ||| IF_LCD }
    else p
  else if p.ly = 144 then
    let p := { p with win_line := 0 }
    let p := { p with interrupt_request := p.interrupt_request ||| IF_VBLANK }
    let p := p.update_mode .VBlank
    let p := { p with display := p.display.swap }
    let p := { p with ly := p.ly + 1 }
    if 0 < p.stat_enable &&& STAT_LYC ∧ p.lyc = p.ly then
      { p with interrupt_request := p.interrupt_request ||| IF_LCD }
    else p
  else if p.ly = 153 then
    let p := { p with ly := 0 }
    let p := p.update_mode .OAMScan
    if p.state = .Starting then { p with state := .Active } else p
  else
    let p := { p with ly := p.ly + 1 }
    if 0 < p.stat_enable &&& STAT_LYC ∧ p.lyc = p.ly then
      { p with interrupt_request := p.interrupt_request ||| IF_LCD }
    else p

/-- PPU::cycle from core/src/ppu.rs: reset the per-tick interrupt
request; do nothing when disabled; otherwise advance the dot counter or,
at 455, run the scanline boundary. -/
def PPU.cycle (p : PPU) : PPU :=
  let p := { p with interrupt_request := 0 }
  if p.state = .Disabled then p
  else if p.lx < 455 then p.cycle_dot
  else p.cycle_boundary

/-- State touched by the interrupt logic of the legacy crate
(src/cpu.rs and src/cpu/interrupts.rs): program counter, stack pointer,
the bus bytes written by `push`, the `InterruptState` fields (`ime`,
`ie`, `iflag` as 5-bit masks), the halt flag, and the count of M-cycles
issued through `cycle`.  The device ticks performed inside `cycle` act on
the separately embedded PPU/timer/APU and are not repeated here; in the
IME=0 path of `check_for_interrupt` no `cycle` call is issued at all. -/
structure LegacyState where
  pc : Nat
  sp : Nat
  mem : Nat → Nat
  ime : Bool
  ie : Nat
  iflag : Nat
  halt : Bool
  mcycles : Nat

/-- CPU::run_interrupt from src/cpu/interrupts.rs: remove the flag from
IF, wait 2 M-cycles, push PC (2 M-cycles; SP decrements by 2 wrapping,
high byte stored at SP+1, low byte at SP), jump to the vector, and
account 1 more M-cycle.  The source's wildcard vector arm is `panic!()`
and unreachable: `check_for_interrupt` only passes the five flags. -/
def LegacyState.run_interrupt (s : LegacyState) (interrupt : Nat) : LegacyState :=
  let s := { s with iflag := s.iflag &&& (0b11111 ^^^ interrupt) }
  let address : Nat :=
    if interrupt = IF_VBLANK then 0x40
    else if interrupt = IF_LCD then 0x48
    else if interrupt = IF_TIMER then 0x50
    else if interrupt = IF_SERIAL then 0x58
    else if interrupt = IF_JOYPAD then 0x60
    else 0
  let s := { s with mcycles := s.mcycles + 2 }
  let s := { s with mcycles := s.mcycles + 2 }
  let sp2 := (s.sp + 0x10000 - 2) % 0x10000
  let hi := s.pc / 256 % 256
  let lo := s.pc % 256
  let mem2 := fun a =>
    if a = (sp2 + 1) % 0x10000 then hi else if a = sp2 then lo else s.mem a
  let s := { s with sp := sp2, mem := mem2 }
  let s := { s with pc := address }
  { s with mcycles := s.mcycles + 1 }

/-- CPU::check_for_interrupt from src/cpu/interrupts.rs. -/
def LegacyState.check_for_interrupt (s : LegacyState) : LegacyState :=
  let interrupt_requests := s.ie &&& s.iflag
  if 0 < interrupt_requests then
    let s := { s with halt := false }
    if s.ime then
      let s :=
        if 0 < interrupt_requests &&& IF_VBLANK then s.run_interrupt IF_VBLANK
        else if 0 < interrupt_requests &&& IF_LCD then s.run_interrupt IF_LCD
        else if 0 < interrupt_requests &&& IF_TIMER then s.run_interrupt IF_TIMER
        else if 0 < interrupt_requests &&& IF_SERIAL then s.run_interrupt IF_SERIAL
        else if 0 < interrupt_requests &&& IF_JOYPAD then s.run_interrupt IF_JOYPAD
        else s
      { s with ime := false }
    else s
  else s

/-- Front of CPU::execute from src/cpu.rs (lines 76-92): run the
interrupt check; if still halted, idle for one M-cycle fetching nothing;
otherwise fetch the opcode at PC.  The returned byte is the opcode the
instruction decoder receives; decoding and the instruction bodies follow
it and are outside the scope of the halt wake-up claim. -/
def LegacyState.execute_front (s : LegacyState) : LegacyState × Option Nat :=
  let s := s.check_for_interrupt
  if s.halt then ({ s with mcycles := s.mcycles + 1 }, none)
  else (s, some (s.mem s.pc))

/-- Taken-condition of a conditional control-flow opcode, as the legacy
CPU::get_opcode_condition (src/cpu.rs, lines 777-783) selects it: the
ZERO flag when the high nibble of the opcode is 0xC, the CARRY flag
otherwise.  `negate` is the call sites' `condition = !condition` and
`always` their `condition = true`; `never` only arises as the negation
of `always` and is reached by no opcode. -/
inductive LegacyCond where
  | always
  | never
  | zero
  | notZero
  | carry
  | notCarry

/-- The `condition = !condition` edits inside CPU::execute (src/cpu.rs,
lines 405-407 and 453-455), lifted to taken-conditions. -/
def LegacyCond.negate : LegacyCond → LegacyCond
  | .always => .never
  | .never => .always
  | .zero => .notZero
  | .notZero => .zero
  | .carry => .notCarry
  | .notCarry => .carry

/-- CPU::get_opcode_condition from src/cpu.rs (lines 777-783): the ZERO
flag is consulted when `opcode & 0xF0 == 0xC0`, the CARRY flag
otherwise. -/
def get_opcode_condition (opcode : Nat) : LegacyCond :=
  if opcode &&& 0xF0 = 0xC0 then .zero else .carry

/-- Instruction arm of the legacy CPU::execute opcode dispatch.  Each
constructor names one arm of the match in src/cpu.rs (lines 95-565),
following the source's own arm comments.  `PanicInvalid` stands for the
arms `panic` with message "Invalid instruction" plus the byte, and
`PanicBare` for the bare argument-less `panic` inside the 0xE0/0xF0 LD
address match (line 383).  The arm bodies (operand fetches, register,
flag and memory updates, cycle accounting) are not modelled: the
dispatch alone settles which instruction an opcode byte runs as, and no
arm of the source returns an error value of any kind. -/
inductive LegacyDispatch where
  | NOP
  | STOP
  | JR (taken : LegacyCond)
  | LD_d16
  | LD_r16
  | INCDEC_r16
  | INCDEC_r8
  | LD_d8
  | RLCA
  | RLA
  | DAA
  | SCF
  | LD_a16_SP
  | ADD_HL_r16
  | RRCA
  | RRA
  | CPL
  | CCF
  | LD_B
  | LD_C
  | LD_D
  | LD_E
  | LD_H
  | LD_L
  | LD_HL_mem
  | LD_A
  | ADD_A (carryIn : Bool)
  | SUB_A (carryIn : Bool)
  | AND_A
  | XOR_A
  | OR_A
  | CP_A
  | HALT
  | DI
  | LDH_a8 (store : Bool)
  | LDH_C (store : Bool)
  | LD_a16 (store : Bool)
  | RET_N (condition : LegacyCond)
  | JP (taken : LegacyCond)
  | POP
  | PUSH
  | Arith_d8
  | CALL (taken : LegacyCond)
  | RST
  | ADD_SP (sp_dst : Bool)
  | RET_cond (taken : LegacyCond)
  | RET
  | RETI
  | JP_HL
  | LD_SP_HL
  | EI
  | CBPrefixed
  | PanicInvalid (byte : Nat)
  | PanicBare

/-- Opcode dispatch of the legacy CPU::execute (src/cpu.rs, lines
95-565), transcribed match arm by match arm: the outer match on the
opcode byte, the nibble matches inside the 0x00-0x3F and 0xC0-0xFF arms
(the latter are lines 368-565), the DI / LD / control-flow split on
`opcode & 0xF0`, and the per-site condition edits.  The source lists
the 0x76 HALT arm after the 0x40..=0x75 | 0x77..=0xBF arm, whose range
excludes 0x76, so testing 0x76 first is the same dispatch.  In the JR
arms the source guards the jump by boolean formulas over the opcode and
the flags; per opcode they reduce to the recorded taken-condition
(0x20: ZERO clear, 0x30: CARRY clear, 0x18: always, 0x28: ZERO set,
0x38: CARRY set).  `RET_N condition` pops when `condition` is false
(source line 396).  In `LDH_a8`, `LDH_C` and `LD_a16` the flag is
`opcode & 0xF0 == 0xE0`: true stores A, false loads A (line 385).
Wildcard arms the nibble case split already exhausts are kept as their
`PanicInvalid` defaults. -/
def execute_dispatch (opcode : Nat) : LegacyDispatch :=
  if opcode ≤ 0x3F then
    let nibble := opcode &&& 0x0F
    if nibble = 0x0 then
      if opcode = 0x00 then .NOP
      else if opcode = 0x10 then .STOP
      else .JR (if opcode = 0x20 then .notZero else .notCarry)
    else if nibble = 0x1 then .LD_d16
    else if nibble = 0x2 ∨ nibble = 0xA then .LD_r16
    else if nibble = 0x3 ∨ nibble = 0xB then .INCDEC_r16
    else if nibble = 0x4 ∨ nibble = 0x5 ∨ nibble = 0xC ∨ nibble = 0xD then
      .INCDEC_r8
    else if nibble = 0x6 ∨ nibble = 0xE then .LD_d8
    else if nibble = 0x7 then
      if opcode = 0x07 then .RLCA
      else if opcode = 0x17 then .RLA
      else if opcode = 0x27 then .DAA
      else if opcode = 0x37 then .SCF
      else .PanicInvalid opcode
    else if nibble = 0x8 then
      if opcode = 0x08 then .LD_a16_SP
      else .JR (if opcode = 0x18 then .always
                else if opcode = 0x28 then .zero
                else .carry)
    else if nibble = 0x9 then .ADD_HL_r16
    else if nibble = 0xF then
      if opcode = 0x0F then .RRCA
      else if opcode = 0x1F then .RRA
      else if opcode = 0x2F then .CPL
      else if opcode = 0x3F then .CCF
      else .PanicInvalid opcode
    else .PanicInvalid opcode
  else if opcode = 0x76 then .HALT
  else if opcode ≤ 0xBF then
    if opcode ≤ 0x47 then .LD_B
    else if opcode ≤ 0x4F then .LD_C
    else if opcode ≤ 0x57 then .LD_D
    else if opcode ≤ 0x5F then .LD_E
    else if opcode ≤ 0x67 then .LD_H
    else if opcode ≤ 0x6F then .LD_L
    else if opcode ≤ 0x77 then .LD_HL_mem
    else if opcode ≤ 0x7F then .LD_A
    else if opcode ≤ 0x8F then .ADD_A (decide (0x88 ≤ opcode))
    else if opcode ≤ 0x9F then .SUB_A (decide (0x98 ≤ opcode))
    else if opcode ≤ 0xA7 then .AND_A
    else if opcode ≤ 0xAF then .XOR_A
    else if opcode ≤ 0xB7 then .OR_A
    else .CP_A
  else
    let nibble := opcode &&& 0x0F
    if nibble = 0x0 ∨ nibble = 0x2 ∨ nibble = 0x3 ∨ nibble = 0xA then
      if opcode = 0xF3 then .DI
      else if 0xE0 ≤ opcode &&& 0xF0 then
        if nibble = 0x0 then .LDH_a8 (opcode &&& 0xF0 == 0xE0)
        else if nibble = 0x2 then .LDH_C (opcode &&& 0xF0 == 0xE0)
        else if nibble = 0xA then .LD_a16 (opcode &&& 0xF0 == 0xE0)
        else .PanicBare
      else
        let condition := get_opcode_condition opcode
        if nibble = 0x0 then .RET_N condition
        else
          let condition := if nibble = 0x2 then condition.negate else condition
          let condition := if nibble = 0x3 then LegacyCond.always else condition
          .JP condition
    else if nibble = 0x1 then .POP
    else if nibble = 0x5 then .PUSH
    else if nibble = 0x6 ∨ nibble = 0xE then .Arith_d8
    else if nibble = 0x4 ∨ nibble = 0xC ∨ nibble = 0xD then
      let condition := get_opcode_condition opcode
      let condition := if nibble = 0x4 then condition.negate else condition
      let condition := if nibble = 0xD then LegacyCond.always else condition
      .CALL condition
    else if nibble = 0x7 ∨ nibble = 0xF then .RST
    else if nibble = 0x8 then
      if 0xE0 ≤ opcode then .ADD_SP (opcode == 0xE8)
      else .RET_cond (get_opcode_condition opcode)
    else if nibble = 0x9 then
      if opcode = 0xC9 then .RET
      else if opcode = 0xD9 then .RETI
      else if opcode = 0xE9 then .JP_HL
      else if opcode = 0xF9 then .LD_SP_HL
      else .PanicInvalid opcode
    else if nibble = 0xB then
      if opcode = 0xFB then .EI else .CBPrefixed
    else .PanicInvalid opcode

/-- Invariant of claim C8 for one square channel: an enabled channel has
its DAC on. -/
def SquareChannel.flags_ok (c : SquareChannel) : Prop :=
  c.channel_on = true → c.dac_on = true

/-- Invariant of claim C8 for the wave channel. -/
def WaveChannel.flags_ok (c : WaveChannel) : Prop :=
  c.channel_on = true → c.dac_on = true

/-- Invariant of claim C8 for the noise channel. -/
def NoiseChannel.flags_ok (c : NoiseChannel) : Prop :=
  c.channel_on = true → c.dac_on = true

/-- Invariant of claim C8 over the four channels of the APU. -/
def APU.channels_dac_ok (a : APU) : Prop :=
  a.square_channel_1.flags_ok ∧ a.square_channel_2.flags_ok
    ∧ a.wave_channel.flags_ok ∧ a.noise_channel.flags_ok

/-- Operations through which APU state is reachable: a register write on
the bus (which covers trigger events, NRx4 writes with bit 7) and one
T-cycle tick with the current timer divider. -/
inductive APUOp where
  | write (address value : Nat)
  | tick (timer_div : Nat)

/-- Application of an `APUOp`. -/
def APU.apply (a : APU) : APUOp → APU
  | .write address value => a.mem_write address value
  | .tick timer_div => a.cycle timer_div

/-- CartridgeInfo of claim C4: an MBC1 cartridge reporting 125 ROM
banks. -/
def info125 : CartridgeInfo :=
  { mbc := .MBC1
    has_ram := false
    has_battery := false
    rom_banks := 125
    ram_banks := 0
    title := [] }

/-- Concrete ROM image for the C4 counterexample: bank 0 is all zeros and
the first byte of bank 1 (offset 0x4000) is 0xAA. -/
def mbc1_rom : List Nat := List.replicate 0x4000 0 ++ [0xAA]

/-- CartridgeInfo of claim C7: a NoMBC cartridge with one 8 KiB RAM
bank. -/
def nombc_info : CartridgeInfo :=
  { mbc := .NoMBC
    has_ram := true
    has_battery := false
    rom_banks := 2
    ram_banks := 1
    title := [] }

/-- MBC state of claim C7: NoMBC cartridge with one RAM bank and the
RAM-enable latch on. -/
def nombc_cart : MBC :=
  { MBC.init (List.replicate 0x8000 0) nombc_info with ram_enabled := true }

/-- Concrete PPU state at the end of the scanline on which LY reads 143:
the next `cycle` is the boundary at which LY advances to 144. -/
def ppu143 : PPU :=
  { state := .Active
    display := { front := List.replicate 1440 0, back := List.replicate 1440 0 }
    vram := List.replicate 0x2000 0
    oam := List.replicate 40 { y := 0, x := 0, tile_index := 0, flags := 0 }
    lcdc := 0
    lx := 455
    ly := 143
    bg_x := 0
    bg_y := 0
    win_x := 0
    win_y := 0
    win_line := 0
    palettes := { bg := 0, obj0 := 0, obj1 := 0 }
    interrupt_request := 0
    stat_enable := 0
    mode := .HBlank
    lyc := 0 }

/-- Concrete PPU state one scanline later than `ppu143`: LY reads 144 and
`lx` is at the wrap. -/
def ppu144 : PPU := { ppu143 with ly := 144 }

/-- APU state of the C6 failing input: from reset, write 0x80 to NR30
(0xFF1A).  This sets the wave channel's DAC on while `channel_on` stays
false (no trigger occurred). -/
def apu_wave_dac : APU := APU.new.mem_write 0xFF1A 0x80

/-- LegacyState of the C9 witness: halted right after a HALT instruction
(PC already advanced past it), IME off, IE and IF both with the VBLANK
bit set. -/
def halt_state : LegacyState :=
  { pc := 0x0101
    sp := 0xFFFE
    mem := fun _ => 0
    ime := false
    ie := 0x01
    iflag := 0x01
    halt := true
    mcycles := 0 }

/-- C1: `Memory::new` returns the NoHeader error for every input shorter
than 0x014F bytes; but at length exactly 0x014F the claim fails on the
code: the guard `rom.len() < 0x014F` passes, the header slice
`rom[0x0100..=0x014F]` is out of range and the constructor panics
(modelled as `none`) instead of returning the RomHeaderMissing error, so
the claimed behavior does not hold for every input shorter than
0x0150. -/
theorem memory_new_short_rom :
    (∀ rom : List Nat, rom.length < 0x014F →
        Memory.new rom = some (.error ⟨.NoHeader⟩)) ∧
      Memory.new (List.replicate 0x014F 0) = none := by
  constructor
  · intro rom h
    unfold Memory.new
    rw [if_pos h]
  · rfl

/-- Witness for `memory_new_short_rom` at the empty input. -/
theorem memory_new_short_rom_witness :
    ([] : List Nat).length < 0x014F ∧
      Memory.new [] = some (.error ⟨.NoHeader⟩) :=
  ⟨by decide, memory_new_short_rom.1 [] (by decide)⟩

/-- C2: refuted against the cited code.  The legacy CPU::execute
(src/cpu.rs, lines 368-565) has no InvalidOpcode error path at all:
each of the eleven prohibited opcode bytes is dispatched as another
instruction — 0xD3 as an unconditional JP a16; 0xDB and 0xEB as a
CB-prefix table dispatch on the following byte; 0xDD, 0xED and 0xFD as
unconditional CALL a16; 0xE4 and 0xF4 as CALL taken on CARRY clear;
0xEC and 0xFC as CALL taken on CARRY set — and 0xE3 reaches a bare
argument-less `panic` that identifies no byte, instead of failing with
an InvalidOpcode error identifying the byte as the claim states. -/
theorem prohibited_opcodes_executed_as_other_instructions :
    execute_dispatch 0xD3 = .JP .always ∧
    execute_dispatch 0xDB = .CBPrefixed ∧
    execute_dispatch 0xDD = .CALL .always ∧
    execute_dispatch 0xE3 = .PanicBare ∧
    execute_dispatch 0xE4 = .CALL .notCarry ∧
    execute_dispatch 0xEB = .CBPrefixed ∧
    execute_dispatch 0xEC = .CALL .carry ∧
    execute_dispatch 0xED = .CALL .always ∧
    execute_dispatch 0xF4 = .CALL .notCarry ∧
    execute_dispatch 0xFC = .CALL .carry ∧
    execute_dispatch 0xFD = .CALL .always :=
  ⟨rfl, rfl, rfl, rfl, rfl, rfl, rfl, rfl, rfl, rfl, rfl⟩

/-- C5 counterexample: in the scenario of the claim (divider 0,
TMA = TIMA = 0xFE, TAC written 0x05, then exactly 64 T-cycles) it is not
the case that the TIMER interrupt was requested and TIMA reads 0xFE:
TIMA has just overflowed to 0x00 at the fourth falling edge and its TMA
reload is still pending. -/
theorem timer_after_64_not_fe :
    ¬ ((Timer.run timerScenario false 64).2 = true ∧
        (Timer.run timerScenario false 64).1.tima = 0xFE) := by
  decide

/-- C5 amended: after the 64 T-cycles the TIMER interrupt has been
requested (at the reload 4 cycles past the first overflow), but TIMA
reads 0x00 with the second overflow's reload pending; 4 T-cycles later
TIMA reads 0xFE. -/
theorem timer_after_64_amended :
    (Timer.run timerScenario false 64).2 = true ∧
      (Timer.run timerScenario false 64).1.tima = 0x00 ∧
      (Timer.run timerScenario false 64).1.overflow_delay = 3 ∧
      (Timer.run timerScenario false 68).1.tima = 0xFE := by
  decide

/-- C6: reading NR52 after setting only the wave DAC (NR30 bit 7) from
reset returns 0xF4: bit 2 is set because the source composes it from
`wave_channel.dac_on`, while the wave channel's `channel_on` is still
false — contradicting the claim that bit 2 equals the wave channel's
`channel_on`. -/
theorem nr52_bit2_reads_wave_dac :
    APU.mem_read apu_wave_dac 0xFF26 = 0xF4 ∧
      Nat.testBit 0xF4 2 = true ∧
      apu_wave_dac.wave_channel.channel_on = false ∧
      apu_wave_dac.wave_channel.dac_on = true := by
  decide

/-- C7: on a NoMBC cartridge with one enabled 8 KiB RAM bank, writing
0x01 to 0xA000 and reading it back yields 0, not 0x01: the NoMBC RAM
passthrough forwards the raw bus address (not rebased by 0xA000) to the
8 KiB RAM vector, so every access is out of range — the write is dropped
(RAM unchanged) and the read returns 0. -/
theorem nombc_ram_roundtrip_fails :
    (nombc_cart.write_nombc 0xA000 0x01).read_nombc 0xA000 = 0 ∧
      (nombc_cart.write_nombc 0xA000 0x01).ram = nombc_cart.ram ∧
      (0 : Nat) ≠ 0x01 := by
  have hlen : nombc_cart.ram.length = 0x2000 := by
    show (List.replicate (0x2000 * nombc_info.ram_banks) 0).length = 0x2000
    rw [List.length_replicate]
    rfl
  have hw : nombc_cart.write_nombc 0xA000 0x01 = nombc_cart := by
    unfold MBC.write_nombc MBC.write_ram
    rw [if_pos (by omega), if_pos (by rw [hlen]; decide)]
  have hr : nombc_cart.read_nombc 0xA000 = 0 := by
    unfold MBC.read_nombc MBC.read_ram
    rw [if_neg (by omega), if_pos (by omega), if_pos (by rw [hlen]; decide)]
  refine ⟨?_, ?_, by decide⟩
  · rw [hw]
    exact hr
  · rw [hw]

/-- C10: for addresses below 0xFFFF `read_16` returns the little-endian
pair of bus bytes, but at 0xFFFF the unchecked `address + 1` overflows
u16 (modelled as `none`: a panic under debug assertions) instead of
wrapping; consequently `pop` fails at SP = 0xFFFF and `read_operand_16`
fails at PC = 0xFFFE (where the unchecked `pc - 1` underflows). -/
theorem read_16_unchecked_arithmetic :
    (∀ (read : Nat → Nat) (a : Nat), a < 0xFFFF →
        read_16 read a = some (read a + 256 * read (a + 1))) ∧
      (∀ read : Nat → Nat, read_16 read 0xFFFF = none) ∧
      (∀ read : Nat → Nat, pop read 0xFFFF = none) ∧
      (∀ read : Nat → Nat, read_operand_16 read 0xFFFE = none) := by
  refine ⟨?_, fun _ => rfl, fun _ => rfl, fun _ => rfl⟩
  intro read a h
  unfold read_16 checkedAddU16
  rw [if_pos (by omega)]
  rfl

/-- Witness for `read_16_unchecked_arithmetic` at address 0 with an
all-zero bus. -/
theorem read_16_unchecked_arithmetic_witness :
    (0 : Nat) < 0xFFFF ∧ read_16 (fun _ => 0) 0 = some 0 :=
  ⟨by decide, read_16_unchecked_arithmetic.1 (fun _ => 0) 0 (by decide)⟩

/-- C9: if the CPU is halted with IME off and some interrupt pending in
both IE and IF, the next instruction step clears the halt flag and
proceeds to fetch the opcode at PC — which HALT already advanced to the
instruction following it — without vectoring (PC, SP and memory
untouched), without clearing the pending IF bit, and with IME still
off. -/
theorem halt_wakeup_ime_off (s : LegacyState) (hhalt : s.halt = true)
    (hime : s.ime = false) (hpend : s.ie &&& s.iflag ≠ 0) :
    s.execute_front.1.halt = false ∧
      s.execute_front.1.pc = s.pc ∧
      s.execute_front.1.sp = s.sp ∧
      s.execute_front.1.iflag = s.iflag ∧
      s.execute_front.1.ime = false ∧
      s.execute_front.1.mem = s.mem ∧
      s.execute_front.2 = some (s.mem s.pc) := by
  simp [LegacyState.execute_front, LegacyState.check_for_interrupt,
    Nat.pos_of_ne_zero hpend, hime]

/-- Witness for `halt_wakeup_ime_off` at the concrete post-HALT state. -/
theorem halt_wakeup_ime_off_witness :
    (halt_state.halt = true ∧ halt_state.ime = false ∧
        halt_state.ie &&& halt_state.iflag ≠ 0) ∧
      (halt_state.execute_front.1.halt = false ∧
        halt_state.execute_front.1.pc = halt_state.pc ∧
        halt_state.execute_front.1.sp = halt_state.sp ∧
        halt_state.execute_front.1.iflag = halt_state.iflag ∧
        halt_state.execute_front.1.ime = false ∧
        halt_state.execute_front.1.mem = halt_state.mem ∧
        halt_state.execute_front.2 = some (halt_state.mem halt_state.pc)) :=
  ⟨⟨rfl, rfl, by decide⟩, halt_wakeup_ime_off halt_state rfl rfl (by decide)⟩

/-- Frame fact: `set_pixel` leaves the front framebuffer untouched
(writes go to the back buffer). -/
theorem set_pixel_front (p : PPU) (d : DoubleBuffer) (x y col : Nat) :
    (p.set_pixel d x y col).front = d.front := by
  unfold PPU.set_pixel
  split_ifs <;> rfl

/-- Frame fact: the column fold of `draw_scanline` leaves the front
framebuffer untouched. -/
theorem foldl_set_pixel_front (p : PPU) (y : Nat) (g : Nat → Nat) :
    ∀ (xs : List Nat) (d : DoubleBuffer),
      (xs.foldl (fun d x => p.set_pixel d x y (g x)) d).front = d.front := by
  intro xs
  induction xs with
  | nil => intro d; rfl
  | cons x xs ih => intro d; rw [List.foldl_cons, ih, set_pixel_front]

/-- Frame facts of `draw_scanline`: it only writes pixels (into the back
framebuffer) and possibly increments `win_line`; the scan registers, the
mode, the interrupt request and the front framebuffer are untouched. -/
theorem draw_scanline_frame (p : PPU) (y : Nat) :
    (p.draw_scanline y).ly = p.ly ∧
      (p.draw_scanline y).mode = p.mode ∧
      (p.draw_scanline y).interrupt_request = p.interrupt_request ∧
      (p.draw_scanline y).stat_enable = p.stat_enable ∧
      (p.draw_scanline y).lyc = p.lyc ∧
      (p.draw_scanline y).display.front = p.display.front :=
  ⟨rfl, rfl, rfl, rfl, rfl, foldl_set_pixel_front ..⟩

/-- Timing fact shared by the C3 theorems: at the `lx` wrap of a visible
scanline (LY reading at most 143, STAT sources disabled) the PPU enters
OAMScan, advances LY, requests no interrupt, and does not swap the
framebuffers. -/
theorem visible_boundary_no_vblank (p : PPU) (hs : p.state = .Active)
    (hlx : p.lx = 455) (hly : p.ly ≤ 143) (hstat : p.stat_enable = 0) :
    p.cycle.ly = p.ly + 1 ∧
      p.cycle.mode = PPUMode.OAMScan ∧
      p.cycle.interrupt_request = 0 ∧
      p.cycle.display.front = p.display.front := by
  unfold PPU.cycle PPU.cycle_boundary PPU.update_mode
  dsimp only
  rw [hs, hlx]
  simp only [hstat, draw_scanline_frame, Nat.zero_and]
  norm_num
  rw [if_pos hly]
  simp [draw_scanline_frame]

/-- C3 counterexample: at the scanline boundary where LY advances to 144
(the `lx` wrap with LY reading 143) the PPU does not enter VBlank: it
enters OAMScan, requests no interrupt at all, and the front framebuffer
is unchanged (no swap). -/
theorem ly144_boundary_no_vblank :
    (PPU.cycle ppu143).ly = 144 ∧
      (PPU.cycle ppu143).mode = PPUMode.OAMScan ∧
      PPUMode.OAMScan ≠ PPUMode.VBlank ∧
      (PPU.cycle ppu143).interrupt_request = 0 ∧
      (PPU.cycle ppu143).display.front = ppu143.display.front := by
  obtain ⟨h1, h2, h3, h4⟩ :=
    visible_boundary_no_vblank ppu143 rfl rfl (by decide) rfl
  exact ⟨h1, h2, by decide, h3, h4⟩

/-- C3 amended: the VBlank entry, the framebuffer swap and the VBLANK
interrupt request all happen together one scanline boundary later, at
the `lx` wrap of the scanline on which LY reads 144 (LY advancing to
145). -/
theorem vblank_events_at_ly145_boundary (p : PPU) (hs : p.state ≠ .Disabled)
    (hlx : p.lx = 455) (hly : p.ly = 144) :
    p.cycle.mode = PPUMode.VBlank ∧
      Nat.testBit p.cycle.interrupt_request 0 = true ∧
      p.cycle.display.front = p.display.back ∧
      p.cycle.display.back = p.display.front ∧
      p.cycle.ly = 145 := by
  unfold PPU.cycle PPU.cycle_boundary PPU.update_mode
  dsimp only
  rw [hlx, hly, if_neg hs]
  norm_num
  split_ifs <;>
    simp_all [DoubleBuffer.swap, IF_VBLANK, IF_LCD, STAT_LYC, Nat.testBit_lor]

/-- Witness for `vblank_events_at_ly145_boundary` at the concrete state
`ppu144`. -/
theorem vblank_events_at_ly145_boundary_witness :
    (ppu144.state ≠ PPUState.Disabled ∧ ppu144.lx = 455 ∧ ppu144.ly = 144) ∧
      (ppu144.cycle.mode = PPUMode.VBlank ∧
        Nat.testBit ppu144.cycle.interrupt_request 0 = true ∧
        ppu144.cycle.display.front = ppu144.display.back ∧
        ppu144.cycle.display.back = ppu144.display.front ∧
        ppu144.cycle.ly = 145) :=
  ⟨⟨by decide, rfl, rfl⟩,
    vblank_events_at_ly145_boundary ppu144 (by decide) rfl rfl⟩

/-- Effect of a C4 write on the MBC1 registers: for each of the values
0x00, 0x20 and 0x60 the low 5-bit bank register receives 0 (the mask for
a 32-bank window is 0x1F), which the source bumps to 1. -/
theorem mbc1_low_register_write_sets_bank1 (rom : List Nat) (v : Nat)
    (hv : v = 0x00 ∨ v = 0x20 ∨ v = 0x60) :
    (MBC.init rom info125).write_mbc1 0x2000 v
      = { MBC.init rom info125 with rom_bank := 1 } := by
  rcases hv with rfl | rfl | rfl <;>
    · unfold MBC.write_mbc1
      norm_num [MBC.mask_bank_number, ceilLog2, ceilLog2Aux, MBC.init, info125]
      try decide

/-- C4 amended: on an MBC1 cartridge reporting 125 ROM banks with the
high bank register and banking mode at reset, writing any of 0x00, 0x20
or 0x60 to 0x2000-0x3FFF makes every read of 0x4000-0x7FFF come from ROM
bank 1 (ROM offset `1 * 0x4000 + (a - 0x4000)`): the 5-bit register sees
0 in each case and reads back as 1, so banks 0x20 and 0x60 are not
reachable through this register alone. -/
theorem mbc1_reads_bank1_after_zero_masked_writes (rom : List Nat) (v a : Nat)
    (hv : v = 0x00 ∨ v = 0x20 ∨ v = 0x60) (ha1 : 0x4000 ≤ a) (ha2 : a ≤ 0x7FFF) :
    ((MBC.init rom info125).write_mbc1 0x2000 v).read_mbc1 a
      = (MBC.init rom info125).read_rom (1 * 0x4000 + (a - 0x4000)) := by
  rw [mbc1_low_register_write_sets_bank1 rom v hv]
  unfold MBC.read_mbc1
  dsimp only
  rw [if_pos ha2, if_pos ha1]
  norm_num [MBC.init, info125]
  have harith : a - 0x4000 + 0x4000 = 1 * 0x4000 + (a - 0x4000) := by omega
  rw [harith]

/-- Witness for `mbc1_reads_bank1_after_zero_masked_writes` at an empty
ROM, value 0x20 and address 0x4000. -/
theorem mbc1_reads_bank1_witness :
    ((0x20 : Nat) = 0x00 ∨ (0x20 : Nat) = 0x20 ∨ (0x20 : Nat) = 0x60) ∧
      (0x4000 : Nat) ≤ 0x4000 ∧ (0x4000 : Nat) ≤ 0x7FFF ∧
      ((MBC.init [] info125).write_mbc1 0x2000 0x20).read_mbc1 0x4000
        = (MBC.init [] info125).read_rom (1 * 0x4000 + (0x4000 - 0x4000)) :=
  ⟨by norm_num, by norm_num, by norm_num,
    mbc1_reads_bank1_after_zero_masked_writes [] 0x20 0x4000 (by norm_num)
      (by norm_num) (by norm_num)⟩

/-- Length of the C4 counterexample ROM. -/
theorem mbc1_rom_length : mbc1_rom.length = 0x4001 := by
  unfold mbc1_rom
  simp only [List.length_append, List.length_replicate, List.length_cons,
    List.length_nil]

/-- Marker byte of the C4 counterexample ROM: offset 0x4000 (the first
byte of ROM bank 1) holds 0xAA. -/
theorem mbc1_rom_marker : mbc1_rom.getD 0x4000 0 = 0xAA := by
  unfold mbc1_rom
  rw [List.getD_eq_getElem?_getD,
    List.getElem?_append_right (by rw [List.length_replicate])]
  simp only [List.length_replicate]
  decide

/-- C4 counterexample: after writing 0x20 to the MBC1 low bank register
(high register and banking mode at reset, 125 ROM banks), reading 0x4000
returns the bank-1 marker 0xAA — not the bank-0x20 byte, which is 0 (the
ROM read at offset `0x20 * 0x4000` is out of range of this image and
reads 0); hence reads do not come from ROM bank 0x20 as claimed. -/
theorem mbc1_write_0x20_reads_bank1 :
    ((MBC.init mbc1_rom info125).write_mbc1 0x2000 0x20).read_mbc1 0x4000 = 0xAA ∧
      ((MBC.init mbc1_rom info125).write_mbc1 0x2000 0x20).read_rom (0x20 * 0x4000) = 0 ∧
      (0xAA : Nat) ≠ 0 := by
  refine ⟨?_, ?_, by decide⟩
  · rw [mbc1_reads_bank1_after_zero_masked_writes mbc1_rom 0x20 0x4000
      (by norm_num) (by norm_num) (by norm_num)]
    unfold MBC.read_rom
    dsimp only [MBC.init]
    rw [show (1 : Nat) * 0x4000 + (0x4000 - 0x4000) = 0x4000 by norm_num]
    rw [if_neg (by rw [mbc1_rom_length]; decide)]
    exact mbc1_rom_marker
  · rw [mbc1_low_register_write_sets_bank1 mbc1_rom 0x20 (by norm_num)]
    unfold MBC.read_rom
    dsimp only [MBC.init]
    rw [if_pos (by rw [mbc1_rom_length]; decide)]

/-- Preservation of the C8 invariant by SquareChannel::update_length_timer. -/
theorem sq_ult (c : SquareChannel) (h : c.flags_ok) :
    c.update_length_timer.flags_ok := by
  unfold SquareChannel.flags_ok SquareChannel.update_length_timer at *
  split_ifs <;> simp_all <;> (try (split_ifs <;> simp_all))

/-- Preservation of the C8 invariant by SquareChannel::update_sweep. -/
theorem sq_sweep (c : SquareChannel) (h : c.flags_ok) :
    c.update_sweep.flags_ok := by
  unfold SquareChannel.flags_ok SquareChannel.update_sweep at *
  split_ifs <;> simp_all <;> (try (split_ifs <;> simp_all))

/-- Preservation of the C8 invariant by SquareChannel::update_envelope. -/
theorem sq_env (c : SquareChannel) (h : c.flags_ok) :
    c.update_envelope.flags_ok := by
  unfold SquareChannel.flags_ok SquareChannel.update_envelope at *
  split_ifs <;> simp_all <;> (try (split_ifs <;> simp_all))

/-- Preservation of the C8 invariant by SquareChannel::update_period. -/
theorem sq_per (c : SquareChannel) (h : c.flags_ok) :
    c.update_period.flags_ok := by
  unfold SquareChannel.flags_ok SquareChannel.update_period at *
  split_ifs <;> simp_all <;> (try (split_ifs <;> simp_all))

/-- Preservation of the C8 invariant by SquareChannel::trigger. -/
theorem sq_trig (c : SquareChannel) :
    c.trigger.flags_ok := by
  unfold SquareChannel.flags_ok SquareChannel.trigger
  simp

/-- Preservation of the C8 invariant by the square channel register
writes, triggers included. -/
theorem sq_write (c : SquareChannel) (a v : Nat) (h : c.flags_ok) :
    (c.write_register a v).flags_ok := by
  unfold SquareChannel.flags_ok SquareChannel.write_register SquareChannel.trigger at *
  split_ifs <;> simp_all <;> (try (split_ifs <;> simp_all)) <;> (try omega)

/-- Preservation of the C8 invariant by WaveChannel::update_length_timer. -/
theorem wave_ult (c : WaveChannel) (h : c.flags_ok) :
    c.update_length_timer.flags_ok := by
  unfold WaveChannel.flags_ok WaveChannel.update_length_timer at *
  split_ifs <;> simp_all

/-- Preservation of the C8 invariant by WaveChannel::update_period. -/
theorem wave_per (c : WaveChannel) (h : c.flags_ok) :
    c.update_period.flags_ok := by
  unfold WaveChannel.flags_ok WaveChannel.update_period at *
  split_ifs <;> simp_all

/-- Preservation of the C8 invariant by the wave channel register writes,
triggers included. -/
theorem wave_write (c : WaveChannel) (a v : Nat) (h : c.flags_ok) :
    (c.write_register a v).flags_ok := by
  unfold WaveChannel.flags_ok WaveChannel.write_register WaveChannel.trigger at *
  split_ifs <;> simp_all <;> (try (split_ifs <;> simp_all)) <;> (try omega)

/-- Preservation of the C8 invariant by NoiseChannel::update_length_timer. -/
theorem noise_ult (c : NoiseChannel) (h : c.flags_ok) :
    c.update_length_timer.flags_ok := by
  unfold NoiseChannel.flags_ok NoiseChannel.update_length_timer at *
  split_ifs <;> simp_all

/-- Preservation of the C8 invariant by NoiseChannel::update_envelope. -/
theorem noise_env (c : NoiseChannel) (h : c.flags_ok) :
    c.update_envelope.flags_ok := by
  unfold NoiseChannel.flags_ok NoiseChannel.update_envelope at *
  split_ifs <;> simp_all <;> (try (split_ifs <;> simp_all))

/-- Preservation of the C8 invariant by NoiseChannel::update_lfsr. -/
theorem noise_lfsr (c : NoiseChannel) (h : c.flags_ok) :
    c.update_lfsr.flags_ok := by
  unfold NoiseChannel.flags_ok NoiseChannel.update_lfsr at *
  split_ifs <;> simp_all <;> (try (split_ifs <;> simp_all))

/-- Preservation of the C8 invariant by the noise channel register writes,
triggers included. -/
theorem noise_write (c : NoiseChannel) (a v : Nat) (h : c.flags_ok) :
    (c.write_register a v).flags_ok := by
  unfold NoiseChannel.flags_ok NoiseChannel.write_register NoiseChannel.trigger at *
  split_ifs <;> simp_all <;> (try (split_ifs <;> simp_all)) <;> (try omega)

/-- A freshly reset square channel satisfies the C8 invariant. -/
theorem sq_new : SquareChannel.new.flags_ok := by
  unfold SquareChannel.flags_ok SquareChannel.new
  simp

/-- A freshly reset wave channel (any wave RAM) satisfies the C8
invariant. -/
theorem wave_new (w : List Nat) : ({ WaveChannel.new with wave_ram := w }).flags_ok := by
  unfold WaveChannel.flags_ok WaveChannel.new
  simp

/-- A freshly reset noise channel satisfies the C8 invariant. -/
theorem noise_new : NoiseChannel.new.flags_ok := by
  unfold NoiseChannel.flags_ok NoiseChannel.new
  simp

/-- Preservation of the C8 invariant by APU::mem_write over the whole
register space, master-control writes (power off) included. -/
theorem apu_mem_write (ap : APU) (addr v : Nat) (h : ap.channels_dac_ok) :
    (ap.mem_write addr v).channels_dac_ok := by
  obtain ⟨h1, h2, h3, h4⟩ := h
  unfold APU.mem_write APU.turn_off
  split_ifs <;> refine ⟨?_, ?_, ?_, ?_⟩ <;> (try dsimp only) <;> (try split_ifs) <;>
    (try dsimp only) <;>
    solve_by_elim [sq_write, sq_new, wave_write, wave_new, noise_write, noise_new]

/-- Preservation of the C8 invariant by APU::cycle (one T-cycle),
section by section. -/
theorem apu_cycle (ap : APU) (d : Nat) (h : ap.channels_dac_ok) :
    (ap.cycle d).channels_dac_ok := by
  obtain ⟨h1, h2, h3, h4⟩ := h
  have hf : ∀ (b : APU), b.channels_dac_ok → (b.cycle_frame_sequencer d).channels_dac_ok := by
    intro b hb
    obtain ⟨b1, b2, b3, b4⟩ := hb
    unfold APU.cycle_frame_sequencer
    dsimp only
    split_ifs <;> refine ⟨?_, ?_, ?_, ?_⟩ <;> (try dsimp only) <;>
      solve_by_elim [sq_ult, sq_sweep, sq_env, wave_ult, noise_ult, noise_env]
  have hp : ∀ (b : APU), b.channels_dac_ok → b.cycle_period_updates.channels_dac_ok := by
    intro b hb
    obtain ⟨b1, b2, b3, b4⟩ := hb
    unfold APU.cycle_period_updates
    dsimp only
    split_ifs <;> refine ⟨?_, ?_, ?_, ?_⟩ <;> (try dsimp only) <;>
      solve_by_elim [sq_per, wave_per, noise_lfsr]
  have hs : ∀ (b : APU), b.channels_dac_ok → b.cycle_sampling.channels_dac_ok := by
    intro b hb
    obtain ⟨b1, b2, b3, b4⟩ := hb
    unfold APU.cycle_sampling
    split_ifs <;> exact ⟨b1, b2, b3, b4⟩
  exact hs _ (hp _ (hf _ ⟨h1, h2, h3, h4⟩))

/-- C8: in every APU state reachable through register writes, triggers
and ticks from reset, each channel satisfies channel_on = true implies
dac_on = true: the invariant holds at reset and every APU operation
preserves it. -/
theorem apu_channel_on_implies_dac_on :
    APU.channels_dac_ok APU.new ∧
      ∀ (op : APUOp) (ap : APU), ap.channels_dac_ok → (ap.apply op).channels_dac_ok := by
  constructor
  · refine ⟨?_, ?_, ?_, ?_⟩ <;> intro hc <;> exact absurd hc (by decide)
  · intro op ap hap
    cases op with
    | write addr v => exact apu_mem_write ap addr v hap
    | tick dd => exact apu_cycle ap dd hap

/-- Witness for `apu_channel_on_implies_dac_on` at the reset state and a
concrete NR12 write. -/
theorem apu_channel_on_implies_dac_on_witness :
    APU.channels_dac_ok APU.new ∧
      (APU.new.apply (.write 0xFF12 0xF0)).channels_dac_ok :=
  ⟨apu_channel_on_implies_dac_on.1,
    apu_channel_on_implies_dac_on.2 (.write 0xFF12 0xF0) APU.new
      (by refine ⟨?_, ?_, ?_, ?_⟩ <;> intro hc <;> exact absurd hc (by decide))⟩

end GB
